import Mathlib

/-!
Verification development for `droneConfig.cc`, an ns-3 mmWave/EPC scenario
setup script.  The script's `main` is a single straight-line sequence of
calls into the ns-3 framework; we embed it as a concrete list of `Action`s
(`mainTrace`) together with a small-step interpreter (`exec`) over an
explicit `SimState`, and prove properties of the trace and of the final
state `run p`.
-/

namespace DroneConfig

/-- The local variables of `main` after command-line parsing
(lines 18-25 of `droneConfig.cc`).  `numEnb`/`numUe` are `uint16_t`
(modelled as `Nat`, stores reduce mod 2^16), the distance/time locals are
`double`s modelled as `ℚ`. -/
structure Params where
  numEnb : Nat
  numUe : Nat
  simTime : ℚ
  interPacketInterval : ℚ
  minDistance : ℚ
  maxDistance : ℚ
  harqEnabled : Bool
  rlcAmEnabled : Bool
deriving DecidableEq, Repr

/-- The declared defaults of the locals (lines 18-25). -/
def defaultParams : Params :=
  { numEnb := 1
    numUe := 1
    simTime := 2
    interPacketInterval := 100
    minDistance := 10
    maxDistance := 150
    harqEnabled := true
    rlcAmEnabled := false }

/-- A typed command-line value, as ns-3 `CommandLine` would deliver it to
the bound variable. -/
inductive ArgVal
  | uintV (n : Nat)
  | doubleV (q : ℚ)
  | boolV (b : Bool)
deriving DecidableEq, Repr

/-- The declared type of a registered command-line argument. -/
inductive ArgTy
  | uintT
  | doubleT
  | boolT
deriving DecidableEq, Repr

/-- One `cmd.AddValue(name, description, var)` registration. -/
structure AddValueCall where
  name : String
  description : String
  ty : ArgTy
deriving DecidableEq, Repr

/-- The six `cmd.AddValue` registrations of lines 29-34, in order. -/
def cmdRegistrations : List AddValueCall :=
  [ { name := "numEnb", description := "Number of eNBs", ty := .uintT }
  , { name := "numUe", description := "Number of UEs per eNB", ty := .uintT }
  , { name := "simTime", description := "Total duration of the simulation [s])", ty := .doubleT }
  , { name := "interPacketInterval", description := "Inter-packet interval [us])", ty := .doubleT }
  , { name := "harq", description := "Enable Hybrid ARQ", ty := .boolT }
  , { name := "rlcAm", description := "Enable RLC-AM", ty := .boolT } ]

/-- Apply one supplied `--name=value` pair to the bound locals: each of the
six registered names stores into its variable (a `uint16_t` store reduces
mod 2^16); any other name binds no variable of this script. -/
def applyArg (p : Params) (a : String × ArgVal) : Params :=
  if a.1 = "numEnb" then
    match a.2 with | .uintV n => { p with numEnb := n % 65536 } | _ => p
  else if a.1 = "numUe" then
    match a.2 with | .uintV n => { p with numUe := n % 65536 } | _ => p
  else if a.1 = "simTime" then
    match a.2 with | .doubleV q => { p with simTime := q } | _ => p
  else if a.1 = "interPacketInterval" then
    match a.2 with | .doubleV q => { p with interPacketInterval := q } | _ => p
  else if a.1 = "harq" then
    match a.2 with | .boolV b => { p with harqEnabled := b } | _ => p
  else if a.1 = "rlcAm" then
    match a.2 with | .boolV b => { p with rlcAmEnabled := b } | _ => p
  else p

/-- `cmd.Parse(argc, argv)` (line 35): fold the supplied name/value pairs
over the bound locals. -/
def parseCmd (p : Params) (args : List (String × ArgVal)) : Params :=
  args.foldl applyArg p

/-- An ns-3 attribute value as used by this script.  `timeV` carries a
`Time` in nanoseconds; `dataRateV` carries bits per second. -/
inductive AttrValue
  | booleanV (b : Bool)
  | timeV (ns : ℚ)
  | dataRateV (bps : Nat)
  | uintegerV (n : Nat)
deriving DecidableEq, Repr

/-- `MicroSeconds x` as a `Time` in nanoseconds. -/
def microSeconds (q : ℚ) : ℚ := q * 1000

/-- `Seconds x` as a `Time` in nanoseconds. -/
def seconds (q : ℚ) : ℚ := q * 1000000000

/-- `a.b.c.d` as a 32-bit IPv4 address value. -/
def ipv4 (a b c d : Nat) : Nat := ((a * 256 + b) * 256 + c) * 256 + d

/-- One framework call made by `main`, with the arguments the source
passes at that call site.  Arguments that are runtime handles (the PGW
node, the remote host) are resolved by the interpreter from the state. -/
inductive Action
  | parseArgs
  | setDefault (key : String) (v : AttrValue)
  | createMmWaveHelper
  | setSchedulerType (s : String)
  | createEpcHelper
  | setEpcHelper
  | setHarqEnabled (b : Bool)
  | configStoreConfigureDefaults
  | getPgwNode
  | ncCreate (container : String) (n : Nat)
  | internetInstall (container : String)
  | p2pSetDeviceAttribute (key : String) (v : AttrValue)
  | p2pSetChannelAttribute (key : String) (v : AttrValue)
  | p2pInstallPgwRemote
  | ipv4SetBase (base mask : Nat)
  | ipv4Assign
  | recordRemoteHostAddr (i : Nat)
  | addNetworkRouteRemoteHost (dest mask ifIndex : Nat)
  | simulatorRun
deriving DecidableEq, Repr

/-- The call site shape of an `Action`, with run-time data erased (string
keys and container names kept). -/
inductive ActionKind
  | parseArgsK
  | setDefaultK (key : String)
  | createMmWaveHelperK
  | setSchedulerTypeK
  | createEpcHelperK
  | setEpcHelperK
  | setHarqEnabledK
  | configStoreK
  | getPgwNodeK
  | ncCreateK (container : String)
  | internetInstallK
  | p2pDeviceAttrK (key : String)
  | p2pChannelAttrK (key : String)
  | p2pInstallK
  | ipv4SetBaseK
  | ipv4AssignK
  | recordRemoteHostAddrK
  | addRouteK
  | simulatorRunK
deriving DecidableEq, Repr

/-- Erase an action to its call-site shape. -/
def Action.kind : Action → ActionKind
  | .parseArgs => .parseArgsK
  | .setDefault k _ => .setDefaultK k
  | .createMmWaveHelper => .createMmWaveHelperK
  | .setSchedulerType _ => .setSchedulerTypeK
  | .createEpcHelper => .createEpcHelperK
  | .setEpcHelper => .setEpcHelperK
  | .setHarqEnabled _ => .setHarqEnabledK
  | .configStoreConfigureDefaults => .configStoreK
  | .getPgwNode => .getPgwNodeK
  | .ncCreate c _ => .ncCreateK c
  | .internetInstall _ => .internetInstallK
  | .p2pSetDeviceAttribute k _ => .p2pDeviceAttrK k
  | .p2pSetChannelAttribute k _ => .p2pChannelAttrK k
  | .p2pInstallPgwRemote => .p2pInstallK
  | .ipv4SetBase _ _ => .ipv4SetBaseK
  | .ipv4Assign => .ipv4AssignK
  | .recordRemoteHostAddr _ => .recordRemoteHostAddrK
  | .addNetworkRouteRemoteHost _ _ _ => .addRouteK
  | .simulatorRun => .simulatorRunK

/-- The straight-line body of `main` (lines 27-85), one `Action` per
framework call, in source order.  Its only dependence on the parsed
locals is the four values `rlcAmEnabled`, `harqEnabled`, `numEnb`,
`numUe`. -/
def mainTrace (p : Params) : List Action :=
  [ .parseArgs
  , .setDefault "ns3::MmWaveHelper::RlcAmEnabled" (.booleanV p.rlcAmEnabled)
  , .setDefault "ns3::MmWaveHelper::HarqEnabled" (.booleanV p.harqEnabled)
  , .setDefault "ns3::MmWaveFlexTtiMacScheduler::HarqEnabled" (.booleanV p.harqEnabled)
  , .setDefault "ns3::LteRlcAm::ReportBufferStatusTimer" (.timeV (microSeconds 100))
  , .setDefault "ns3::LteRlcUmLowLat::ReportBufferStatusTimer" (.timeV (microSeconds 100))
  , .createMmWaveHelper
  , .setSchedulerType "ns3::MmWaveFlexTtiMacScheduler"
  , .createEpcHelper
  , .setEpcHelper
  , .setHarqEnabled p.harqEnabled
  , .configStoreConfigureDefaults
  , .parseArgs
  , .getPgwNode
  , .ncCreate "remoteHostContainer" 1
  , .internetInstall "remoteHostContainer"
  , .p2pSetDeviceAttribute "DataRate" (.dataRateV 100000000000)
  , .p2pSetDeviceAttribute "Mtu" (.uintegerV 1500)
  , .p2pSetChannelAttribute "Delay" (.timeV (seconds (1 / 100)))
  , .p2pInstallPgwRemote
  , .ipv4SetBase (ipv4 1 0 0 0) (ipv4 255 0 0 0)
  , .ipv4Assign
  , .recordRemoteHostAddr 1
  , .addNetworkRouteRemoteHost (ipv4 7 0 0 0) (ipv4 255 0 0 0) 1
  , .ncCreate "enbNodes" p.numEnb
  , .ncCreate "ueNodes" p.numUe ]

/-- A point-to-point link installed by `p2ph.Install`, with the device and
channel attributes the helper held at install time. -/
structure P2PLink where
  nodeA : Nat
  nodeB : Nat
  deviceAttrs : List (String × AttrValue)
  channelAttrs : List (String × AttrValue)
deriving DecidableEq, Repr

/-- A static route added by `AddNetworkRouteTo` on some node. -/
structure Route where
  node : Nat
  dest : Nat
  mask : Nat
  ifIndex : Nat
deriving DecidableEq, Repr

/-- The configuration state the script builds up. -/
structure SimState where
  defaults : List (String × AttrValue)
  schedulerType : Option String
  epcAttached : Bool
  helperHarq : Option Bool
  configStoreDone : Bool
  parseCount : Nat
  nextNodeId : Nat
  pgwNode : Option Nat
  containers : List (String × List Nat)
  internetNodes : List Nat
  p2pDeviceAttrs : List (String × AttrValue)
  p2pChannelAttrs : List (String × AttrValue)
  links : List P2PLink
  internetDevices : List Nat
  addrBase : Option (Nat × Nat)
  ifaceAssignments : List (Nat × Nat)
  remoteHostAddr : Option Nat
  routes : List Route
  simulatorStarted : Bool
deriving DecidableEq, Repr

/-- The empty state before `main` makes any framework call. -/
def initState : SimState :=
  { defaults := []
    schedulerType := none
    epcAttached := false
    helperHarq := none
    configStoreDone := false
    parseCount := 0
    nextNodeId := 0
    pgwNode := none
    containers := []
    internetNodes := []
    p2pDeviceAttrs := []
    p2pChannelAttrs := []
    links := []
    internetDevices := []
    addrBase := none
    ifaceAssignments := []
    remoteHostAddr := none
    routes := []
    simulatorStarted := false }

/-- The nodes of a named `NodeContainer` (empty if that container has not
been filled). -/
def containerNodes (st : SimState) (c : String) : List Nat :=
  match st.containers.find? (fun e => e.1 == c) with
  | some e => e.2
  | none => []

/-- `remoteHost = remoteHostContainer.Get(0)` (line 60). -/
def remoteHostNode (st : SimState) : Option Nat :=
  (containerNodes st "remoteHostContainer").head?

/-- Current default value registered for an attribute key. -/
def lookupDefault (st : SimState) (key : String) : Option AttrValue :=
  (st.defaults.find? (fun d => d.1 == key)).map Prod.snd

/-- Overwrite-or-append a key/value binding. -/
def upsert (l : List (String × AttrValue)) (k : String) (v : AttrValue) :
    List (String × AttrValue) :=
  l.filter (fun d => !(d.1 == k)) ++ [(k, v)]

/-- One framework call's effect on the configuration state. -/
def exec (st : SimState) : Action → SimState
  | .parseArgs => { st with parseCount := st.parseCount + 1 }
  | .setDefault k v => { st with defaults := upsert st.defaults k v }
  | .createMmWaveHelper => st
  | .setSchedulerType s => { st with schedulerType := some s }
  | .createEpcHelper =>
      { st with pgwNode := some st.nextNodeId, nextNodeId := st.nextNodeId + 1 }
  | .setEpcHelper => { st with epcAttached := true }
  | .setHarqEnabled b => { st with helperHarq := some b }
  | .configStoreConfigureDefaults => { st with configStoreDone := true }
  | .getPgwNode => st
  | .ncCreate c n =>
      { st with
          containers := st.containers ++ [(c, List.range' st.nextNodeId n)],
          nextNodeId := st.nextNodeId + n }
  | .internetInstall c =>
      { st with internetNodes := st.internetNodes ++ containerNodes st c }
  | .p2pSetDeviceAttribute k v =>
      { st with p2pDeviceAttrs := upsert st.p2pDeviceAttrs k v }
  | .p2pSetChannelAttribute k v =>
      { st with p2pChannelAttrs := upsert st.p2pChannelAttrs k v }
  | .p2pInstallPgwRemote =>
      match st.pgwNode, remoteHostNode st with
      | some a, some b =>
          { st with
              links := st.links ++
                [{ nodeA := a, nodeB := b,
                   deviceAttrs := st.p2pDeviceAttrs,
                   channelAttrs := st.p2pChannelAttrs }],
              internetDevices := [a, b] }
      | _, _ => st
  | .ipv4SetBase b m => { st with addrBase := some (b, m) }
  | .ipv4Assign =>
      match st.addrBase with
      | some (b, _) =>
          { st with ifaceAssignments :=
              st.internetDevices.enum.map (fun e => (e.2, b + e.1 + 1)) }
      | none => st
  | .recordRemoteHostAddr i =>
      { st with remoteHostAddr := (st.ifaceAssignments.get? i).map Prod.snd }
  | .addNetworkRouteRemoteHost d m i =>
      match remoteHostNode st with
      | some rh => { st with routes := st.routes ++ [⟨rh, d, m, i⟩] }
      | none => st
  | .simulatorRun => { st with simulatorStarted := true }

/-- The configuration state at the end of `main`, for parsed locals `p`. -/
def run (p : Params) : SimState :=
  (mainTrace p).foldl exec initState

/-- The call-site shapes of `main`'s trace, in source order. -/
def mainKinds : List ActionKind :=
  [ .parseArgsK
  , .setDefaultK "ns3::MmWaveHelper::RlcAmEnabled"
  , .setDefaultK "ns3::MmWaveHelper::HarqEnabled"
  , .setDefaultK "ns3::MmWaveFlexTtiMacScheduler::HarqEnabled"
  , .setDefaultK "ns3::LteRlcAm::ReportBufferStatusTimer"
  , .setDefaultK "ns3::LteRlcUmLowLat::ReportBufferStatusTimer"
  , .createMmWaveHelperK
  , .setSchedulerTypeK
  , .createEpcHelperK
  , .setEpcHelperK
  , .setHarqEnabledK
  , .configStoreK
  , .parseArgsK
  , .getPgwNodeK
  , .ncCreateK "remoteHostContainer"
  , .internetInstallK
  , .p2pDeviceAttrK "DataRate"
  , .p2pDeviceAttrK "Mtu"
  , .p2pChannelAttrK "Delay"
  , .p2pInstallK
  , .ipv4SetBaseK
  , .ipv4AssignK
  , .recordRemoteHostAddrK
  , .addRouteK
  , .ncCreateK "enbNodes"
  , .ncCreateK "ueNodes" ]

/-- The shape of `main`'s trace does not depend on the parsed locals. -/
theorem mainTrace_kinds (p : Params) : (mainTrace p).map Action.kind = mainKinds := rfl

/-- The setup phases of the script as named by the specification, in the
order the specification states them: parse arguments, set the five global
defaults, construct the two helpers, parse the config store, create the
remote host and the point-to-point link, assign addresses, install the
static route, create the eNB and UE containers. -/
def setupPhaseKinds : List ActionKind :=
  [ .parseArgsK
  , .setDefaultK "ns3::MmWaveHelper::RlcAmEnabled"
  , .setDefaultK "ns3::MmWaveHelper::HarqEnabled"
  , .setDefaultK "ns3::MmWaveFlexTtiMacScheduler::HarqEnabled"
  , .setDefaultK "ns3::LteRlcAm::ReportBufferStatusTimer"
  , .setDefaultK "ns3::LteRlcUmLowLat::ReportBufferStatusTimer"
  , .createMmWaveHelperK
  , .createEpcHelperK
  , .configStoreK
  , .ncCreateK "remoteHostContainer"
  , .p2pInstallK
  , .ipv4AssignK
  , .addRouteK
  , .ncCreateK "enbNodes"
  , .ncCreateK "ueNodes" ]

/-- If a name is not one of the six registered arguments, supplying it
binds no local of the script. -/
theorem applyArg_unregistered (p : Params) (a : String × ArgVal)
    (h : a.1 ∉ cmdRegistrations.map AddValueCall.name) : applyArg p a = p := by
  simp only [cmdRegistrations, List.map_cons, List.map_nil, List.mem_cons,
    List.not_mem_nil, or_false, not_or] at h
  obtain ⟨h1, h2, h3, h4, h5, h6⟩ := h
  simp [applyArg, h1, h2, h3, h4, h5, h6]

/-- Parsing a list of pairs none of whose names is registered leaves
every local unchanged. -/
theorem parseCmd_unregistered (p : Params) (args : List (String × ArgVal))
    (h : ∀ a ∈ args, a.1 ∉ cmdRegistrations.map AddValueCall.name) :
    parseCmd p args = p := by
  induction args with
  | nil => rfl
  | cons a l ih =>
    have ha : applyArg p a = p := applyArg_unregistered p a (h a (by simp))
    simp only [parseCmd, List.foldl_cons, ha]
    exact ih fun b hb => h b (List.mem_cons_of_mem _ hb)

/-- Claim C1, counterexample: on the execution path for the default
command line, `main` never hands control to the simulation engine's event
loop — the trace contains no `Simulator::Run` call. -/
theorem main_default_no_handoff : Action.simulatorRun ∉ mainTrace defaultParams := by
  decide

/-- Claim C1 (amended): after completing all setup steps through the
creation of the eNB and UE node containers, `main` returns without
handing control to the external simulation engine's event loop: no
execution path of `main` contains a `Simulator::Run` invocation. -/
theorem main_never_hands_off (p : Params) : Action.simulatorRun ∉ mainTrace p := by
  intro h
  have hk : ActionKind.simulatorRunK ∈ (mainTrace p).map Action.kind :=
    List.mem_map_of_mem Action.kind h
  rw [mainTrace_kinds] at hk
  exact absurd hk (by decide)

/-- Claim C2: the command-line surface is exactly the six arguments
`numEnb` (uint), `numUe` (uint), `simTime` (double),
`interPacketInterval` (double), `harq` (bool), `rlcAm` (bool); the
declared defaults are `numEnb=1`, `numUe=1`, `simTime=2.0`,
`interPacketInterval=100`, `harq=true`, `rlcAm=false`; and any argv
supplying none of these six flags leaves all locals at those defaults. -/
theorem cli_surface_and_defaults :
    cmdRegistrations.map (fun c => (c.name, c.ty)) =
      [("numEnb", ArgTy.uintT), ("numUe", ArgTy.uintT),
       ("simTime", ArgTy.doubleT), ("interPacketInterval", ArgTy.doubleT),
       ("harq", ArgTy.boolT), ("rlcAm", ArgTy.boolT)] ∧
    (defaultParams.numEnb = 1 ∧ defaultParams.numUe = 1 ∧
     defaultParams.simTime = 2 ∧ defaultParams.interPacketInterval = 100 ∧
     defaultParams.harqEnabled = true ∧ defaultParams.rlcAmEnabled = false) ∧
    ∀ args : List (String × ArgVal),
      (∀ a ∈ args, a.1 ∉ cmdRegistrations.map AddValueCall.name) →
      parseCmd defaultParams args = defaultParams :=
  ⟨rfl, ⟨rfl, rfl, rfl, rfl, rfl, rfl⟩, parseCmd_unregistered defaultParams⟩

/-- Witness for C2: a concrete argv supplying only an unregistered flag
leaves the parsed locals at their defaults. -/
theorem cli_surface_and_defaults_witness :
    (∀ a ∈ [("mobility", ArgVal.boolV true)],
        a.1 ∉ cmdRegistrations.map AddValueCall.name) ∧
    parseCmd defaultParams [("mobility", ArgVal.boolV true)] = defaultParams :=
  ⟨by decide, cli_surface_and_defaults.2.2 [("mobility", ArgVal.boolV true)] (by decide)⟩

/-- Claim C3: for every parsed value of `numEnb` and `numUe`, the eNB
container ends with exactly `numEnb` nodes and the UE container with
exactly `numUe` nodes in total — the UE count does not scale with
`numEnb`. -/
theorem container_counts (p : Params) :
    (containerNodes (run p) "enbNodes").length = p.numEnb ∧
    (containerNodes (run p) "ueNodes").length = p.numUe := by
  constructor
  · show (List.range' 2 p.numEnb).length = p.numEnb
    exact List.length_range' 2 1 p.numEnb
  · show (List.range' (2 + p.numEnb) p.numUe).length = p.numUe
    exact List.length_range' (2 + p.numEnb) 1 p.numUe

/-- Claim C4: on every execution the named setup phases occur in exactly
the stated order — parse arguments, set global defaults, instantiate the
two helpers, parse the config store, create the remote host and the
point-to-point link, assign IP addresses, install the static route, and
finally create the eNB and UE node containers. -/
theorem setup_phase_order (p : Params) :
    setupPhaseKinds.Sublist ((mainTrace p).map Action.kind) := by
  rw [mainTrace_kinds]
  decide

/-- Claim C5: for every parsed value of `harq` and `rlcAm`, the global
defaults `ns3::MmWaveHelper::RlcAmEnabled = rlcAm`,
`ns3::MmWaveHelper::HarqEnabled = harq`,
`ns3::MmWaveFlexTtiMacScheduler::HarqEnabled = harq`, and both RLC
`ReportBufferStatusTimer` defaults of 100 microseconds, are all in force
at the end of setup, the helper's own HARQ setting equals `harq`, and the
five `Config::SetDefault` calls all precede the construction of the two
helpers in the trace. -/
theorem defaults_before_helpers (p : Params) :
    lookupDefault (run p) "ns3::MmWaveHelper::RlcAmEnabled" =
      some (.booleanV p.rlcAmEnabled) ∧
    lookupDefault (run p) "ns3::MmWaveHelper::HarqEnabled" =
      some (.booleanV p.harqEnabled) ∧
    lookupDefault (run p) "ns3::MmWaveFlexTtiMacScheduler::HarqEnabled" =
      some (.booleanV p.harqEnabled) ∧
    lookupDefault (run p) "ns3::LteRlcAm::ReportBufferStatusTimer" =
      some (.timeV (microSeconds 100)) ∧
    lookupDefault (run p) "ns3::LteRlcUmLowLat::ReportBufferStatusTimer" =
      some (.timeV (microSeconds 100)) ∧
    (run p).helperHarq = some p.harqEnabled ∧
    [ActionKind.setDefaultK "ns3::MmWaveHelper::RlcAmEnabled",
     ActionKind.setDefaultK "ns3::MmWaveHelper::HarqEnabled",
     ActionKind.setDefaultK "ns3::MmWaveFlexTtiMacScheduler::HarqEnabled",
     ActionKind.setDefaultK "ns3::LteRlcAm::ReportBufferStatusTimer",
     ActionKind.setDefaultK "ns3::LteRlcUmLowLat::ReportBufferStatusTimer",
     ActionKind.createMmWaveHelperK,
     ActionKind.createEpcHelperK].Sublist ((mainTrace p).map Action.kind) := by
  refine ⟨rfl, rfl, rfl, rfl, rfl, rfl, ?_⟩
  rw [mainTrace_kinds]
  decide

/-- Claim C6: on every execution exactly one remote host node is
created, the Internet stack is installed on exactly that node, exactly
one point-to-point link is installed and its endpoints are the EPC PGW
node and the remote host, and interface addresses come from base
`1.0.0.0` under mask `255.0.0.0` (the two assigned addresses being
`1.0.0.1` and `1.0.0.2`). -/
theorem remote_host_and_link (p : Params) :
    (containerNodes (run p) "remoteHostContainer").length = 1 ∧
    (run p).internetNodes = containerNodes (run p) "remoteHostContainer" ∧
    (run p).links.map (fun l => (some l.nodeA, some l.nodeB)) =
      [((run p).pgwNode, remoteHostNode (run p))] ∧
    (run p).addrBase = some (ipv4 1 0 0 0, ipv4 255 0 0 0) ∧
    (run p).ifaceAssignments.map Prod.snd = [ipv4 1 0 0 1, ipv4 1 0 0 2] := by
  refine ⟨rfl, rfl, rfl, rfl, ?_⟩
  have h : (run p).ifaceAssignments.map Prod.snd =
      [ipv4 1 0 0 0 + 0 + 1, ipv4 1 0 0 0 + 1 + 1] := rfl
  rw [h]
  decide

/-- Claim C7: exactly one static route is installed, it lives on the
remote host, and it is a network route to `7.0.0.0` with mask
`255.0.0.0` via interface index 1; no route is added on any other
node. -/
theorem single_static_route (p : Params) :
    (run p).routes.map (fun r => (some r.node, r.dest, r.mask, r.ifIndex)) =
      [(remoteHostNode (run p), ipv4 7 0 0 0, ipv4 255 0 0 0, 1)] :=
  rfl

/-- Claim C8: the script itself range-checks, clamps, and rejects
nothing: setup uses every parsed value unchanged (container sizes, the
HARQ and RLC-AM flags), and at the boundary values `numEnb=0` and
`numUe=0` both containers are simply created empty. -/
theorem no_validation_of_parsed_values (p : Params) :
    (containerNodes (run p) "enbNodes").length = p.numEnb ∧
    (containerNodes (run p) "ueNodes").length = p.numUe ∧
    (run p).helperHarq = some p.harqEnabled ∧
    lookupDefault (run p) "ns3::MmWaveHelper::RlcAmEnabled" =
      some (.booleanV p.rlcAmEnabled) ∧
    containerNodes (run { defaultParams with numEnb := 0, numUe := 0 }) "enbNodes" = [] ∧
    containerNodes (run { defaultParams with numEnb := 0, numUe := 0 }) "ueNodes" = [] :=
  ⟨(container_counts p).1, (container_counts p).2, rfl, rfl, rfl, rfl⟩

/-- Claim C9: `simTime` and `interPacketInterval` (and the never-parsed
locals `minDistance` and `maxDistance`) have no effect on anything the
script constructs: two runs whose parsed locals agree on `numEnb`,
`numUe`, `harq` and `rlcAm` perform the same trace of framework calls
and end in identical configuration state. -/
theorem unused_params_noninterference (p q : Params)
    (h1 : p.numEnb = q.numEnb) (h2 : p.numUe = q.numUe)
    (h3 : p.harqEnabled = q.harqEnabled) (h4 : p.rlcAmEnabled = q.rlcAmEnabled) :
    mainTrace p = mainTrace q ∧ run p = run q := by
  have ht : mainTrace p = mainTrace q := by
    unfold mainTrace
    rw [h1, h2, h3, h4]
  exact ⟨ht, by unfold run; rw [ht]⟩

/-- Witness for C9: changing only `simTime` and `interPacketInterval`
from the defaults leaves the trace and the final state identical. -/
theorem unused_params_noninterference_witness :
    mainTrace defaultParams =
      mainTrace { defaultParams with simTime := 42, interPacketInterval := 7 } ∧
    run defaultParams =
      run { defaultParams with simTime := 42, interPacketInterval := 7 } :=
  unused_params_noninterference _ _ rfl rfl rfl rfl

/-- Claim C10: the point-to-point link's attributes are fixed constants —
data rate 100 Gb/s (`100000000000` bit/s), MTU 1500 bytes, channel delay
0.010 s — independent of every command-line input, and the recorded
remote-host address is the address at index 1 of the assigned interface
container, index 0 being the PGW side. -/
theorem p2p_fixed_attributes (p : Params) :
    (run p).links.map P2PLink.deviceAttrs =
      [[("DataRate", AttrValue.dataRateV 100000000000),
        ("Mtu", AttrValue.uintegerV 1500)]] ∧
    (run p).links.map P2PLink.channelAttrs =
      [[("Delay", AttrValue.timeV (seconds (1 / 100)))]] ∧
    (run p).remoteHostAddr = ((run p).ifaceAssignments.get? 1).map Prod.snd ∧
    ((run p).ifaceAssignments.map Prod.fst).get? 0 = (run p).pgwNode :=
  ⟨rfl, rfl, rfl, rfl⟩

end DroneConfig
